import Mathlib

/-!
Shallow embedding of the vulkano triangle example (examples/triangle/main.rs):
the App state, its window-event handler (the per-frame rendering procedure),
and the physical-device selection performed in App::new. Machine integers
(u32 sizes, indices) are modelled as Nat; Vulkan handles (formats, queues,
render passes, pipelines) are abstract Nat identifiers; panics (unwrap,
expect, index out of bounds) are modelled by a fatal outcome; the driver
side of swapchain creation (how many images it returns) is a parameter of
the environment.
-/

/-- Width and height in pixels, the two-element array obtained from
window.inner_size() in the Rust code. -/
abbrev Extent := Nat × Nat

/-- The fields of vulkano's SwapchainCreateInfo that the example sets when
it builds or rebuilds the swapchain. -/
structure SwapchainCreateInfo where
  minImageCount : Nat
  imageFormat : Nat
  imageExtent : Extent
  imageUsage : Nat
  compositeAlpha : Nat
deriving DecidableEq

/-- A swapchain image: its format and extent. -/
structure Image where
  format : Nat
  extent : Extent
deriving DecidableEq

/-- A swapchain, remembered through the create-info it was built with
(swapchain.create_info() in the Rust code returns exactly this). -/
structure Swapchain where
  createInfo : SwapchainCreateInfo
deriving DecidableEq

/-- A framebuffer wrapping one swapchain image: it keeps the image view's
format and extent. -/
structure Framebuffer where
  format : Nat
  extent : Extent
deriving DecidableEq

/-- The dynamic viewport cached in the App (offset, extent). The Rust code
stores f32 values obtained by casting u32 image extents; the cast is
injective on realistic window sizes and is modelled as the identity. -/
structure Viewport where
  offset : Extent
  extent : Extent
deriving DecidableEq

/-- What one recorded primary command buffer of the example contains: the
framebuffer its render pass targets, the viewport set as dynamic state,
the bound pipeline and the vertex count of the draw call. -/
structure CommandBuffer where
  framebuffer : Framebuffer
  viewport : Viewport
  pipeline : Nat
  vertexCount : Nat
deriving DecidableEq

/-- GPU futures as the example builds them: sync::now, the acquire future
returned by the environment, and the combinators join, then_execute (with
queue and command buffer), then_swapchain_present (queue, swapchain,
image index) and then_signal_fence_and_flush. -/
inductive GpuFuture where
  | now : GpuFuture
  | envFuture : Nat → GpuFuture
  | join : GpuFuture → GpuFuture → GpuFuture
  | thenExecute : GpuFuture → Nat → CommandBuffer → GpuFuture
  | thenSwapchainPresent : GpuFuture → Nat → Swapchain → Nat → GpuFuture
  | thenSignalFenceAndFlush : GpuFuture → GpuFuture
deriving DecidableEq

/-- The App struct of the example, restricted to the fields the frame loop
reads or writes. window, swapchain, render_pass, pipeline are Options set
in App::resumed, exactly as in the source. -/
structure App where
  recreate_swapchain : Bool
  previous_frame_end : Option GpuFuture
  window : Option Unit
  swapchain : Option Swapchain
  render_pass : Option Nat
  pipeline : Option Nat
  framebuffers : List Framebuffer
  viewport : Viewport
  queue : Nat
  vertex_buffer_len : Nat
deriving DecidableEq

/-- App::new: recreate_swapchain = false, previous_frame_end = Some(now),
window/swapchain/render_pass/pipeline = None, framebuffers = vec![],
viewport = { offset [0,0], extent [0,0] }, and a vertex buffer of the three
triangle vertices. -/
def App.new : App :=
  { recreate_swapchain := false
    previous_frame_end := some GpuFuture.now
    window := none
    swapchain := none
    render_pass := none
    pipeline := none
    framebuffers := []
    viewport := { offset := (0, 0), extent := (0, 0) }
    queue := 0
    vertex_buffer_len := 3 }

/-- The window events the handler distinguishes; every winit event other
than the three named ones falls into the catch-all arm and is modelled by
the tagged constructor other. -/
inductive WindowEvent where
  | closeRequested : WindowEvent
  | resized : Extent → WindowEvent
  | redrawRequested : WindowEvent
  | other : Nat → WindowEvent
deriving DecidableEq

/-- Result of acquire_next_image after Validated::unwrap, as matched in the
source: Ok (image_index, suboptimal, acquire_future), Err(OutOfDate), or
any other error. -/
inductive AcquireResult where
  | ok : Nat → Bool → GpuFuture → AcquireResult
  | outOfDate : AcquireResult
  | otherError : AcquireResult
deriving DecidableEq

/-- Result of then_signal_fence_and_flush after Validated::unwrap, as
matched in the source. -/
inductive FlushResult where
  | ok : FlushResult
  | outOfDate : FlushResult
  | otherError : FlushResult
deriving DecidableEq

/-- The environment of one window_event invocation: the window's current
inner size, the driver's image count for a given swapchain create-info,
and the outcomes of the acquire and flush calls. -/
structure Env where
  innerSize : Extent
  driverImageCount : SwapchainCreateInfo → Nat
  acquire : AcquireResult
  flush : FlushResult

/-- Observable effects of one handler invocation: how often
cleanup_finished was called, how often the swapchain was recreated, the
command buffers recorded, the command buffers submitted via then_execute,
the (swapchain, image index) pairs presented, and whether the event loop
was asked to exit. -/
structure Trace where
  cleanupCalls : Nat
  recreations : Nat
  recorded : List CommandBuffer
  submitted : List CommandBuffer
  presents : List (Swapchain × Nat)
  flushed : Option GpuFuture
  exitRequested : Bool
deriving DecidableEq

/-- The empty trace: no effects. -/
def Trace.empty : Trace :=
  { cleanupCalls := 0
    recreations := 0
    recorded := []
    submitted := []
    presents := []
    flushed := none
    exitRequested := false }

/-- Outcome of a handler invocation: a normal return with the new state and
the trace of effects, or a fatal end (panic / failed unwrap). -/
inductive Outcome where
  | normal : App → Trace → Outcome
  | fatal : Outcome
deriving DecidableEq

/-- Modelled from the spec: the driver side of Swapchain::new /
Swapchain::recreate (vulkano library code, not under the example source).
The driver returns the new swapchain together with its images; each image
has the requested format and extent, and the image count is the driver's
(deterministic) function of the create-info. -/
def Swapchain.create (driver : SwapchainCreateInfo → Nat)
    (info : SwapchainCreateInfo) : Swapchain × List Image :=
  (⟨info⟩, List.replicate (driver info) ⟨info.imageFormat, info.imageExtent⟩)

/-- swapchain.recreate(info): builds a fresh swapchain from the given
create-info, returning it with its new images. -/
def Swapchain.recreate (driver : SwapchainCreateInfo → Nat)
    (_sc : Swapchain) (info : SwapchainCreateInfo) : Swapchain × List Image :=
  Swapchain.create driver info

/-- window_size_dependent_setup: reads images[0].extent() (a panic on an
empty image list, hence Option), writes it into the viewport's extent, and
builds one framebuffer per image from a default image view. -/
def window_size_dependent_setup (images : List Image) (viewport : Viewport) :
    Option (List Framebuffer × Viewport) :=
  match images with
  | [] => none
  | img0 :: _ =>
    some (images.map (fun img => ⟨img.format, img.extent⟩),
      { viewport with extent := img0.extent })

/-- SwapchainCreateInfo { image_extent, ..info }: the create-info used for
the rebuild, identical to the given one except for the image extent. -/
def SwapchainCreateInfo.withExtent (info : SwapchainCreateInfo) (ext : Extent) :
    SwapchainCreateInfo :=
  { minImageCount := info.minImageCount
    imageFormat := info.imageFormat
    imageExtent := ext
    imageUsage := info.imageUsage
    compositeAlpha := info.compositeAlpha }

/-- The `if self.recreate_swapchain` block of the RedrawRequested arm:
when the flag is set, recreate the swapchain with the old create-info
except for the new image_extent, rebuild the framebuffers and viewport
from the new images, and clear the flag. Returns the updated state, the
current swapchain, and the number of recreations performed; none models
the panic inside window_size_dependent_setup. -/
def recreateStep (env : Env) (s : App) (sc0 : Swapchain) (image_extent : Extent) :
    Option (App × Swapchain × Nat) :=
  if s.recreate_swapchain then
    let info : SwapchainCreateInfo := sc0.createInfo.withExtent image_extent
    let res := Swapchain.recreate env.driverImageCount sc0 info
    match window_size_dependent_setup res.2 s.viewport with
    | none => none
    | some (fbs, vp) =>
      some ({ s with
                swapchain := some res.1
                framebuffers := fbs
                viewport := vp
                recreate_swapchain := false }, res.1, 1)
  else
    some (s, sc0, 0)

/-- The part of the RedrawRequested arm from acquire_next_image onward:
match on the acquire result, set the recreate flag on suboptimal, record
the command buffer (framebuffers[image_index] and the pipeline unwrap may
panic), take previous_frame_end, build the submission future chain, flush
it and match on the flush result. -/
def afterAcquire (env : Env) (tr : Trace) (s1 : App) (sc1 : Swapchain)
    (prev : GpuFuture) : Outcome :=
  match env.acquire with
  | AcquireResult.outOfDate =>
    Outcome.normal { s1 with recreate_swapchain := true } tr
  | AcquireResult.otherError => Outcome.fatal
  | AcquireResult.ok image_index suboptimal acquire_future =>
    let s2 := if suboptimal then { s1 with recreate_swapchain := true } else s1
    match s2.framebuffers[image_index]?, s2.pipeline with
    | some fb, some pl =>
      let cb : CommandBuffer :=
        { framebuffer := fb
          viewport := s2.viewport
          pipeline := pl
          vertexCount := s2.vertex_buffer_len }
      let future : GpuFuture :=
        GpuFuture.thenSignalFenceAndFlush
          (GpuFuture.thenSwapchainPresent
            (GpuFuture.thenExecute (GpuFuture.join prev acquire_future) s2.queue cb)
            s2.queue sc1 image_index)
      let tr2 : Trace :=
        { tr with
            recorded := [cb]
            submitted := [cb]
            presents := [(sc1, image_index)]
            flushed := some future }
      let s3 := { s2 with previous_frame_end := none }
      match env.flush with
      | FlushResult.ok =>
        Outcome.normal { s3 with previous_frame_end := some future } tr2
      | FlushResult.outOfDate =>
        Outcome.normal
          { s3 with
              recreate_swapchain := true
              previous_frame_end := some GpuFuture.now } tr2
      | FlushResult.otherError => Outcome.fatal
    | _, _ => Outcome.fatal

/-- The RedrawRequested arm: return immediately if either window dimension
is zero; call cleanup_finished on previous_frame_end (unwrap); run the
recreate step; then acquire, record, submit and present. -/
def redrawFrame (env : Env) (s : App) (sc0 : Swapchain) : Outcome :=
  if env.innerSize.1 = 0 ∨ env.innerSize.2 = 0 then
    Outcome.normal s Trace.empty
  else
    match s.previous_frame_end with
    | none => Outcome.fatal
    | some prev =>
      match recreateStep env s sc0 env.innerSize with
      | none => Outcome.fatal
      | some (s1, sc1, n) =>
        afterAcquire env
          { Trace.empty with
              cleanupCalls := 1
              recreations := n } s1 sc1 prev

/-- App::window_event: unwrap window, swapchain and render_pass, then
dispatch on the event; CloseRequested exits the event loop, Resized sets
the recreate flag, RedrawRequested runs the frame procedure, and the
catch-all arm does nothing. -/
def window_event (env : Env) (s : App) (event : WindowEvent) : Outcome :=
  match s.window, s.swapchain, s.render_pass with
  | some _, some sc0, some _ =>
    match event with
    | WindowEvent.closeRequested =>
      Outcome.normal s { Trace.empty with exitRequested := true }
    | WindowEvent.resized _ =>
      Outcome.normal { s with recreate_swapchain := true } Trace.empty
    | WindowEvent.redrawRequested => redrawFrame env s sc0
    | WindowEvent.other _ => Outcome.normal s Trace.empty
  | _, _, _ => Outcome.fatal

/-- The usage bit ImageUsage::COLOR_ATTACHMENT, as an abstract constant. -/
def imageUsageColorAttachment : Nat := 1

/-- The environment of App::resumed: the window's inner size, the surface
capabilities and formats queried from the physical device, and the
driver's image count function. -/
structure ResumedEnv where
  innerSize : Extent
  surfaceMinImageCount : Nat
  surfaceFormats : List Nat
  supportedCompositeAlpha : List Nat
  driverImageCount : SwapchainCreateInfo → Nat

/-- App::resumed: create the window, build the swapchain with
min_image_count = max(surface minimum, 2), the first surface format, the
window's inner size, color-attachment usage and the first supported
composite alpha; create render pass and pipeline; build framebuffers and
viewport with window_size_dependent_setup. none models the panics on empty
format / composite-alpha / image lists. -/
def App.resumed (env : ResumedEnv) (s : App) : Option App :=
  match env.surfaceFormats.head?, env.supportedCompositeAlpha.head? with
  | some image_format, some composite_alpha =>
    let info : SwapchainCreateInfo :=
      { minImageCount := max env.surfaceMinImageCount 2
        imageFormat := image_format
        imageExtent := env.innerSize
        imageUsage := imageUsageColorAttachment
        compositeAlpha := composite_alpha }
    let res := Swapchain.create env.driverImageCount info
    match window_size_dependent_setup res.2 s.viewport with
    | none => none
    | some (fbs, vp) =>
      some { s with
               window := some ()
               swapchain := some res.1
               render_pass := some 0
               pipeline := some 0
               framebuffers := fbs
               viewport := vp }
  | _, _ => none

/-- The device classes of vulkano's PhysicalDeviceType; unknown stands for
any value matched by the non-exhaustive catch-all arm of the score match. -/
inductive PhysicalDeviceType where
  | discreteGpu : PhysicalDeviceType
  | integratedGpu : PhysicalDeviceType
  | virtualGpu : PhysicalDeviceType
  | cpu : PhysicalDeviceType
  | other : PhysicalDeviceType
  | unknown : PhysicalDeviceType
deriving DecidableEq

/-- One queue family of a physical device: whether its queue_flags contain
GRAPHICS and whether presentation_support holds for it against the event
source. -/
structure QueueFamilyProperties where
  supportsGraphics : Bool
  presentationSupport : Bool
deriving DecidableEq

/-- A physical device as seen by the selection code in App::new: an
abstract handle identity, whether supported_extensions() contains the
required khr_swapchain extension, its queue families in order, and its
device type. -/
structure PhysicalDevice where
  deviceId : Nat
  supportsSwapchainExt : Bool
  queueFamilies : List QueueFamilyProperties
  deviceType : PhysicalDeviceType
deriving DecidableEq

/-- The score the selection assigns to each device type (the match inside
min_by_key): discrete 0, integrated 1, virtual 2, cpu 3, other 4, and 5
for the catch-all arm. -/
def deviceTypeScore : PhysicalDeviceType → Nat
  | PhysicalDeviceType.discreteGpu => 0
  | PhysicalDeviceType.integratedGpu => 1
  | PhysicalDeviceType.virtualGpu => 2
  | PhysicalDeviceType.cpu => 3
  | PhysicalDeviceType.other => 4
  | PhysicalDeviceType.unknown => 5

/-- Iterator::position: the index of the first element satisfying the
predicate, if any. -/
def position {α : Type} (p : α → Bool) : List α → Option Nat
  | [] => none
  | a :: l => if p a then some 0 else (position p l).map (· + 1)

/-- Iterator::min_by_key: the element with the minimum key; when several
elements are equally minimal, Rust documents that the first such element
is returned (ties keep the earlier element). -/
def min_by_key {α : Type} (key : α → Nat) : List α → Option α
  | [] => none
  | a :: l =>
    match min_by_key key l with
    | none => some a
    | some b => if key a ≤ key b then some a else some b

/-- The predicate of the queue-family search: graphics support and
presentation support. -/
def familySuitable (q : QueueFamilyProperties) : Bool :=
  q.supportsGraphics && q.presentationSupport

/-- The (device, queue family index) pairs surviving the filter and
filter_map stages of the selection pipeline. -/
def candidatePairs (devices : List PhysicalDevice) : List (PhysicalDevice × Nat) :=
  (devices.filter fun p => p.supportsSwapchainExt).filterMap
    fun p => (position familySuitable p.queueFamilies).map fun i => (p, i)

/-- The whole selection pipeline of App::new: filter by extension support,
find the first suitable queue family per device, and take the pair with
the minimal device-type score; none models the expect panic. -/
def selectPhysicalDevice (devices : List PhysicalDevice) :
    Option (PhysicalDevice × Nat) :=
  min_by_key (fun pq => deviceTypeScore pq.1.deviceType) (candidatePairs devices)

/-- Decidable well-formedness of the App's cached viewport and
framebuffers against the current swapchain: when a swapchain exists, the
viewport extent equals the swapchain's image extent and every framebuffer
has that extent and the swapchain's image format. -/
def viewportSwapchainInv (s : App) : Bool :=
  match s.swapchain with
  | none => true
  | some sc =>
    decide (s.viewport.extent = sc.createInfo.imageExtent) &&
    s.framebuffers.all fun fb =>
      decide (fb.extent = sc.createInfo.imageExtent) &&
      decide (fb.format = sc.createInfo.imageFormat)

/-- A live App state as left by App::resumed on a 800 by 600 window with a
driver that returns two images, used as concrete input for witnesses. -/
def scInfoLive : SwapchainCreateInfo :=
  { minImageCount := 2
    imageFormat := 7
    imageExtent := (800, 600)
    imageUsage := imageUsageColorAttachment
    compositeAlpha := 1 }

/-- The live swapchain built from scInfoLive. -/
def scLive : Swapchain := ⟨scInfoLive⟩

/-- A framebuffer over one of the live swapchain's images. -/
def fbLive : Framebuffer := { format := 7, extent := (800, 600) }

/-- The live App state used as concrete input for witnesses. -/
def sLive : App :=
  { recreate_swapchain := false
    previous_frame_end := some GpuFuture.now
    window := some ()
    swapchain := some scLive
    render_pass := some 0
    pipeline := some 0
    framebuffers := [fbLive, fbLive]
    viewport := { offset := (0, 0), extent := (800, 600) }
    queue := 0
    vertex_buffer_len := 3 }

/-- An environment where acquire and flush both succeed. -/
def envOk : Env :=
  { innerSize := (800, 600)
    driverImageCount := fun _ => 2
    acquire := AcquireResult.ok 0 false (GpuFuture.envFuture 0)
    flush := FlushResult.ok }

/-- An environment where acquire returns OutOfDate. -/
def envAcqOOD : Env :=
  { envOk with acquire := AcquireResult.outOfDate }

/-- An environment where acquire succeeds but reports suboptimal. -/
def envSubopt : Env :=
  { envOk with acquire := AcquireResult.ok 0 true (GpuFuture.envFuture 0) }

/-- An environment where acquire fails with an error other than OutOfDate. -/
def envAcqErr : Env :=
  { envOk with acquire := AcquireResult.otherError }

/-- An environment where the flush returns OutOfDate. -/
def envFlushOOD : Env :=
  { envOk with flush := FlushResult.outOfDate }

/-- An environment where the flush fails with an error other than
OutOfDate. -/
def envFlushErr : Env :=
  { envOk with flush := FlushResult.otherError }

/-- An environment whose window inner size has a zero dimension. -/
def envZero : Env :=
  { envOk with innerSize := (0, 600) }

/-- A suitable queue family: graphics and presentation both supported. -/
def famGP : QueueFamilyProperties :=
  { supportsGraphics := true, presentationSupport := true }

/-- First of two equally scored discrete GPUs. -/
def devA : PhysicalDevice :=
  { deviceId := 0
    supportsSwapchainExt := true
    queueFamilies := [famGP]
    deviceType := PhysicalDeviceType.discreteGpu }

/-- Second of two equally scored discrete GPUs. -/
def devB : PhysicalDevice :=
  { deviceId := 1
    supportsSwapchainExt := true
    queueFamilies := [famGP]
    deviceType := PhysicalDeviceType.discreteGpu }

/-- The submission chain built in the redraw arm: join the previous frame
end with the acquire future, execute the command buffer on the queue,
present the image, then signal the fence and flush. -/
def chainFuture (prev acqFut : GpuFuture) (queue : Nat) (cb : CommandBuffer)
    (sc : Swapchain) (i : Nat) : GpuFuture :=
  GpuFuture.thenSignalFenceAndFlush
    (GpuFuture.thenSwapchainPresent
      (GpuFuture.thenExecute (GpuFuture.join prev acqFut) queue cb) queue sc i)

/-- The viewport value of the live state. -/
def vpLive : Viewport := { offset := (0, 0), extent := (800, 600) }

/-- The command buffer recorded in the live state at image index 0. -/
def cbLive : CommandBuffer := ⟨fbLive, vpLive, 0, 3⟩

/-- The submission chain built in the live state with envOk. -/
def futureLive : GpuFuture :=
  chainFuture GpuFuture.now (GpuFuture.envFuture 0) 0 cbLive scLive 0

/-- The live state after one successful frame. -/
def sAfterOk : App := { sLive with previous_frame_end := some futureLive }

/-- The trace of one successful frame from the live state. -/
def trSubmit : Trace :=
  { cleanupCalls := 1
    recreations := 0
    recorded := [cbLive]
    submitted := [cbLive]
    presents := [(scLive, 0)]
    flushed := some futureLive
    exitRequested := false }

/-- The trace of a frame aborted right after cleanup_finished. -/
def trCleanupOnly : Trace := { Trace.empty with cleanupCalls := 1 }

/-- The live state with the recreate flag set. -/
def sFlagged : App := { sLive with recreate_swapchain := true }

/-- The live state after a suboptimal but successful frame. -/
def sSuboptAfter : App :=
  { sLive with
      recreate_swapchain := true
      previous_frame_end := some futureLive }

/-- The trace of a successful frame that also performed one rebuild. -/
def trSubmitRebuild : Trace := { trSubmit with recreations := 1 }

/-- The live state after a frame whose flush returned OutOfDate. -/
def sFlushOODAfter : App :=
  { sLive with
      recreate_swapchain := true
      previous_frame_end := some GpuFuture.now }

/-- A concrete environment for App::resumed that reproduces the live
state from a fresh App. -/
def envResumed : ResumedEnv :=
  { innerSize := (800, 600)
    surfaceMinImageCount := 2
    surfaceFormats := [7]
    supportedCompositeAlpha := [1]
    driverImageCount := fun _ => 2 }

/-- Characterization of a successful recreate step: either the flag was
clear and nothing happened, or the flag was set and the swapchain,
framebuffers and viewport were rebuilt from the preserved create-info
with the new extent, and the flag was cleared. -/
theorem recreateStep_cases (env : Env) (s : App) (sc0 : Swapchain) (ext : Extent)
    (s1 : App) (sc1 : Swapchain) (n : Nat)
    (h : recreateStep env s sc0 ext = some (s1, sc1, n)) :
    (s.recreate_swapchain = false ∧ s1 = s ∧ sc1 = sc0 ∧ n = 0) ∨
    (s.recreate_swapchain = true ∧ n = 1 ∧
      sc1 = ⟨sc0.createInfo.withExtent ext⟩ ∧
      0 < env.driverImageCount (sc0.createInfo.withExtent ext) ∧
      s1 = { s with
               swapchain := some sc1
               framebuffers :=
                 List.replicate (env.driverImageCount (sc0.createInfo.withExtent ext))
                   ⟨sc0.createInfo.imageFormat, ext⟩
               viewport := { s.viewport with extent := ext }
               recreate_swapchain := false }) := by
  cases hf : s.recreate_swapchain with
  | true =>
    simp only [recreateStep, hf, if_true, Swapchain.recreate, Swapchain.create,
      window_size_dependent_setup] at h
    right
    cases hk : env.driverImageCount (sc0.createInfo.withExtent ext) with
    | zero =>
      rw [hk] at h
      simp [List.replicate] at h
    | succ k =>
      rw [hk] at h
      simp only [List.replicate, List.map_cons, List.map_replicate,
        Option.some.injEq, Prod.mk.injEq] at h
      obtain ⟨h1, h2, h3⟩ := h
      refine ⟨rfl, h3.symm, h2.symm, Nat.succ_pos k, ?_⟩
      rw [← h1, ← h2]
      rfl
  | false =>
    simp only [recreateStep, hf, Bool.false_eq_true, if_false,
      Option.some.injEq, Prod.mk.injEq] at h
    obtain ⟨h1, h2, h3⟩ := h
    exact Or.inl ⟨rfl, h1.symm, h2.symm, h3.symm⟩

/-- Characterization of a normal return of the post-acquire part of the
frame procedure: either acquire was OutOfDate (flag set, trace unchanged,
nothing recorded) or acquire succeeded, a command buffer was recorded and
submitted, the image presented, and the flush result stored or reset the
previous frame end. -/
theorem afterAcquire_cases (env : Env) (tr : Trace) (s1 : App) (sc1 : Swapchain)
    (prev : GpuFuture) (s2 : App) (tr2 : Trace)
    (h : afterAcquire env tr s1 sc1 prev = Outcome.normal s2 tr2) :
    (env.acquire = AcquireResult.outOfDate ∧
      s2 = { s1 with recreate_swapchain := true } ∧ tr2 = tr) ∨
    (∃ i sub fut fb pl,
      env.acquire = AcquireResult.ok i sub fut ∧
      s1.framebuffers[i]? = some fb ∧
      s1.pipeline = some pl ∧
      tr2 = { tr with
                recorded := [⟨fb, s1.viewport, pl, s1.vertex_buffer_len⟩]
                submitted := [⟨fb, s1.viewport, pl, s1.vertex_buffer_len⟩]
                presents := [(sc1, i)]
                flushed := some (chainFuture prev fut s1.queue
                  ⟨fb, s1.viewport, pl, s1.vertex_buffer_len⟩ sc1 i) } ∧
      ((env.flush = FlushResult.ok ∧
          s2 = { s1 with
                   recreate_swapchain := (sub || s1.recreate_swapchain)
                   previous_frame_end := some (chainFuture prev fut s1.queue
                     ⟨fb, s1.viewport, pl, s1.vertex_buffer_len⟩ sc1 i) }) ∨
       (env.flush = FlushResult.outOfDate ∧
          s2 = { s1 with
                   recreate_swapchain := true
                   previous_frame_end := some GpuFuture.now }))) := by
  cases hacq : env.acquire with
  | outOfDate =>
    simp only [afterAcquire, hacq, Outcome.normal.injEq] at h
    exact Or.inl ⟨rfl, h.1.symm, h.2.symm⟩
  | otherError =>
    simp only [afterAcquire, hacq] at h
    exact Outcome.noConfusion h
  | ok i sub fut =>
    simp only [afterAcquire, hacq] at h
    right
    refine ⟨i, sub, fut, ?_⟩
    cases sub with
    | false =>
      simp only [if_false, Bool.false_eq_true] at h
      cases hfb : s1.framebuffers[i]? with
      | none => rw [hfb] at h; simp at h
      | some fb =>
        rw [hfb] at h
        cases hpl : s1.pipeline with
        | none => rw [hpl] at h; simp at h
        | some pl =>
          rw [hpl] at h
          cases hfl : env.flush with
          | ok =>
            rw [hfl] at h
            simp only [Outcome.normal.injEq] at h
            refine ⟨fb, pl, rfl, rfl, rfl, h.2.symm, Or.inl ⟨rfl, ?_⟩⟩
            rw [← h.1]
            rfl
          | outOfDate =>
            rw [hfl] at h
            simp only [Outcome.normal.injEq] at h
            refine ⟨fb, pl, rfl, rfl, rfl, h.2.symm, Or.inr ⟨rfl, ?_⟩⟩
            rw [← h.1]
          | otherError => rw [hfl] at h; simp at h
    | true =>
      simp only [if_true] at h
      cases hfb : s1.framebuffers[i]? with
      | none => rw [hfb] at h; simp at h
      | some fb =>
        rw [hfb] at h
        cases hpl : s1.pipeline with
        | none => rw [hpl] at h; simp at h
        | some pl =>
          rw [hpl] at h
          cases hfl : env.flush with
          | ok =>
            rw [hfl] at h
            simp only [Outcome.normal.injEq] at h
            refine ⟨fb, pl, rfl, rfl, rfl, h.2.symm, Or.inl ⟨rfl, ?_⟩⟩
            rw [← h.1]
            rfl
          | outOfDate =>
            rw [hfl] at h
            simp only [Outcome.normal.injEq] at h
            refine ⟨fb, pl, rfl, rfl, rfl, h.2.symm, Or.inr ⟨rfl, ?_⟩⟩
            rw [← h.1]
          | otherError => rw [hfl] at h; simp at h

/-- Characterization of a normal return of the RedrawRequested arm: either
the window size had a zero dimension and nothing at all happened, or the
size was non-zero, cleanup_finished ran once, the recreate step succeeded
and the post-acquire part returned normally. -/
theorem redrawFrame_cases (env : Env) (s : App) (sc0 : Swapchain) (s' : App) (tr : Trace)
    (h : redrawFrame env s sc0 = Outcome.normal s' tr) :
    ((env.innerSize.1 = 0 ∨ env.innerSize.2 = 0) ∧ s' = s ∧ tr = Trace.empty) ∨
    (¬(env.innerSize.1 = 0 ∨ env.innerSize.2 = 0) ∧
      ∃ prev s1 sc1 n,
        s.previous_frame_end = some prev ∧
        recreateStep env s sc0 env.innerSize = some (s1, sc1, n) ∧
        afterAcquire env
          { Trace.empty with cleanupCalls := 1, recreations := n } s1 sc1 prev =
          Outcome.normal s' tr) := by
  by_cases hz : env.innerSize.1 = 0 ∨ env.innerSize.2 = 0
  · left
    simp only [redrawFrame, if_pos hz, Outcome.normal.injEq] at h
    exact ⟨hz, h.1.symm, h.2.symm⟩
  · right
    simp only [redrawFrame, if_neg hz] at h
    refine ⟨hz, ?_⟩
    cases hpfe : s.previous_frame_end with
    | none => rw [hpfe] at h; exact Outcome.noConfusion h
    | some prev =>
      rw [hpfe] at h
      cases hrs : recreateStep env s sc0 env.innerSize with
      | none => rw [hrs] at h; exact Outcome.noConfusion h
      | some r =>
        rw [hrs] at h
        exact ⟨prev, r.1, r.2.1, r.2.2, rfl, by rw [← hrs], h⟩

/-- Characterization of a normal return of window_event: the three
late-initialized fields were present, and the event dispatched to the exit
arm, the resize arm, the redraw arm or the catch-all arm. -/
theorem window_event_cases (env : Env) (s : App) (ev : WindowEvent) (s' : App) (tr : Trace)
    (h : window_event env s ev = Outcome.normal s' tr) :
    ∃ w sc0 rp, s.window = some w ∧ s.swapchain = some sc0 ∧ s.render_pass = some rp ∧
      ((ev = WindowEvent.closeRequested ∧ s' = s ∧
          tr = { Trace.empty with exitRequested := true }) ∨
       (∃ sz, ev = WindowEvent.resized sz ∧
          s' = { s with recreate_swapchain := true } ∧ tr = Trace.empty) ∨
       (ev = WindowEvent.redrawRequested ∧
          redrawFrame env s sc0 = Outcome.normal s' tr) ∨
       (∃ t, ev = WindowEvent.other t ∧ s' = s ∧ tr = Trace.empty)) := by
  cases hw : s.window with
  | none =>
    simp only [window_event, hw] at h
    exact Outcome.noConfusion h
  | some w =>
    cases hsc : s.swapchain with
    | none =>
      simp only [window_event, hw, hsc] at h
      exact Outcome.noConfusion h
    | some sc0 =>
      cases hrp : s.render_pass with
      | none =>
        simp only [window_event, hw, hsc, hrp] at h
        exact Outcome.noConfusion h
      | some rp =>
        refine ⟨w, sc0, rp, rfl, rfl, rfl, ?_⟩
        cases ev with
        | closeRequested =>
          simp only [window_event, hw, hsc, hrp, Outcome.normal.injEq] at h
          exact Or.inl ⟨rfl, h.1.symm, h.2.symm⟩
        | resized sz =>
          simp only [window_event, hw, hsc, hrp, Outcome.normal.injEq] at h
          exact Or.inr (Or.inl ⟨sz, rfl, h.1.symm, h.2.symm⟩)
        | redrawRequested =>
          simp only [window_event, hw, hsc, hrp] at h
          exact Or.inr (Or.inr (Or.inl ⟨rfl, h⟩))
        | other t =>
          simp only [window_event, hw, hsc, hrp, Outcome.normal.injEq] at h
          exact Or.inr (Or.inr (Or.inr ⟨t, rfl, h.1.symm, h.2.symm⟩))

/-- window_size_dependent_setup over a replicated image list: the
framebuffers are the replicated framebuffer, the viewport takes the image
extent, and the list was non-empty. -/
theorem setup_replicate (k : Nat) (fmt : Nat) (ext : Extent) (vp : Viewport)
    (fbs : List Framebuffer) (vp' : Viewport)
    (h : window_size_dependent_setup (List.replicate k ⟨fmt, ext⟩) vp = some (fbs, vp')) :
    fbs = List.replicate k (⟨fmt, ext⟩ : Framebuffer) ∧
    vp' = { vp with extent := ext } ∧ 0 < k := by
  cases k with
  | zero => simp [window_size_dependent_setup, List.replicate] at h
  | succ k =>
    simp only [window_size_dependent_setup, List.replicate, List.map_cons,
      List.map_replicate, Option.some.injEq, Prod.mk.injEq] at h
    refine ⟨?_, h.2.symm, Nat.succ_pos k⟩
    rw [← h.1]
    rfl

/-- Claim C5: a RedrawRequested event handled while either window
dimension is zero returns immediately with the state unchanged and an
empty trace: no cleanup_finished call, no swapchain recreation, no command
buffer recorded or submitted, no present, and previous_frame_end
untouched. -/
theorem C5_zero_extent_redraw_is_noop (env : Env) (s : App) (w : Unit)
    (sc0 : Swapchain) (rp : Nat)
    (hz : env.innerSize.1 = 0 ∨ env.innerSize.2 = 0)
    (hw : s.window = some w) (hsc : s.swapchain = some sc0)
    (hrp : s.render_pass = some rp) :
    window_event env s WindowEvent.redrawRequested = Outcome.normal s Trace.empty := by
  simp only [window_event, hw, hsc, hrp, redrawFrame, if_pos hz]

/-- Witness for C5: the live state with a minimized (zero-width) window. -/
theorem C5_zero_extent_redraw_is_noop_witness :
    window_event envZero sLive WindowEvent.redrawRequested =
      Outcome.normal sLive Trace.empty :=
  C5_zero_extent_redraw_is_noop envZero sLive () scLive 0 (Or.inl rfl) rfl rfl rfl

/-- Claim C10: any window event other than CloseRequested, Resized and
RedrawRequested takes the catch-all arm and leaves the whole App state
unchanged, with no observable effect. -/
theorem C10_catch_all_arm_is_noop (env : Env) (s : App) (t : Nat) (w : Unit)
    (sc0 : Swapchain) (rp : Nat)
    (hw : s.window = some w) (hsc : s.swapchain = some sc0)
    (hrp : s.render_pass = some rp) :
    window_event env s (WindowEvent.other t) = Outcome.normal s Trace.empty := by
  simp only [window_event, hw, hsc, hrp]

/-- Witness for C10: an arbitrary ignored event at the live state. -/
theorem C10_catch_all_arm_is_noop_witness :
    window_event envOk sLive (WindowEvent.other 42) =
      Outcome.normal sLive Trace.empty :=
  C10_catch_all_arm_is_noop envOk sLive 42 () scLive 0 rfl rfl rfl

/-- Claim C3: previous_frame_end is present when App is constructed, and
every window_event invocation that starts with it present and returns
normally ends with it present again. -/
theorem C3_previous_frame_end_always_present :
    App.new.previous_frame_end.isSome = true ∧
    ∀ env s ev s' tr, s.previous_frame_end.isSome = true →
      window_event env s ev = Outcome.normal s' tr →
      s'.previous_frame_end.isSome = true := by
  refine ⟨rfl, ?_⟩
  intro env s ev s' tr hsome h
  obtain ⟨w, sc0, rp, hw, hsc, hrp, hcase⟩ := window_event_cases env s ev s' tr h
  rcases hcase with ⟨-, rfl, -⟩ | ⟨sz, -, rfl, -⟩ | ⟨-, hred⟩ | ⟨t, -, rfl, -⟩
  · exact hsome
  · exact hsome
  · rcases redrawFrame_cases env s sc0 s' tr hred with
      ⟨-, rfl, -⟩ | ⟨-, prev, s1, sc1, n, hpfe, hrs, hafter⟩
    · exact hsome
    · rcases afterAcquire_cases _ _ _ _ _ _ _ hafter with
        ⟨-, rfl, -⟩ | ⟨i, sub, fut, fb, pl, -, -, -, -, hfl⟩
      · rcases recreateStep_cases _ _ _ _ _ _ _ hrs with
          ⟨-, rfl, -, -⟩ | ⟨-, -, -, -, rfl⟩
        · exact hsome
        · exact hsome
      · rcases hfl with ⟨-, rfl⟩ | ⟨-, rfl⟩ <;> rfl
  · exact hsome

/-- Witness for C3: one successful frame from the live state keeps
previous_frame_end present. -/
theorem C3_previous_frame_end_always_present_witness :
    sAfterOk.previous_frame_end.isSome = true :=
  C3_previous_frame_end_always_present.2 envOk sLive WindowEvent.redrawRequested
    sAfterOk trSubmit rfl (by decide)

/-- Claim C2: in a redraw with non-zero extent, OutOfDate at acquire sets
the recreate flag and aborts the frame with nothing recorded, submitted or
presented and previous_frame_end untouched; a suboptimal acquire sets the
flag yet the frame still records, submits and presents; any other acquire
error is fatal. -/
theorem C2_acquire_error_handling :
    (∀ env s s' tr, env.acquire = AcquireResult.outOfDate →
        ¬(env.innerSize.1 = 0 ∨ env.innerSize.2 = 0) →
        window_event env s WindowEvent.redrawRequested = Outcome.normal s' tr →
        s'.recreate_swapchain = true ∧ tr.recorded = [] ∧ tr.submitted = [] ∧
        tr.presents = [] ∧ s'.previous_frame_end = s.previous_frame_end) ∧
    (∀ env s s' tr i fut, env.acquire = AcquireResult.ok i true fut →
        ¬(env.innerSize.1 = 0 ∨ env.innerSize.2 = 0) →
        window_event env s WindowEvent.redrawRequested = Outcome.normal s' tr →
        s'.recreate_swapchain = true ∧ tr.recorded.length = 1 ∧
        tr.submitted.length = 1 ∧ tr.presents.length = 1) ∧
    (∀ env s, env.acquire = AcquireResult.otherError →
        ¬(env.innerSize.1 = 0 ∨ env.innerSize.2 = 0) →
        window_event env s WindowEvent.redrawRequested = Outcome.fatal) := by
  refine ⟨?_, ?_, ?_⟩
  · intro env s s' tr hacq hz h
    obtain ⟨w, sc0, rp, hw, hsc, hrp, hcase⟩ := window_event_cases env s _ s' tr h
    rcases hcase with ⟨hev, -, -⟩ | ⟨sz, hev, -, -⟩ | ⟨-, hred⟩ | ⟨t, hev, -, -⟩
    · exact WindowEvent.noConfusion hev
    · exact WindowEvent.noConfusion hev
    · rcases redrawFrame_cases env s sc0 s' tr hred with
        ⟨hz2, -, -⟩ | ⟨-, prev, s1, sc1, n, hpfe, hrs, hafter⟩
      · exact absurd hz2 hz
      · rcases afterAcquire_cases _ _ _ _ _ _ _ hafter with
          ⟨-, rfl, rfl⟩ | ⟨i, sub, fut, fb, pl, hacq2, -⟩
        · rcases recreateStep_cases _ _ _ _ _ _ _ hrs with
            ⟨-, rfl, -, -⟩ | ⟨-, -, -, -, rfl⟩
          · exact ⟨rfl, rfl, rfl, rfl, rfl⟩
          · exact ⟨rfl, rfl, rfl, rfl, rfl⟩
        · rw [hacq] at hacq2
          exact AcquireResult.noConfusion hacq2
    · exact WindowEvent.noConfusion hev
  · intro env s s' tr i fut hacq hz h
    obtain ⟨w, sc0, rp, hw, hsc, hrp, hcase⟩ := window_event_cases env s _ s' tr h
    rcases hcase with ⟨hev, -, -⟩ | ⟨sz, hev, -, -⟩ | ⟨-, hred⟩ | ⟨t, hev, -, -⟩
    · exact WindowEvent.noConfusion hev
    · exact WindowEvent.noConfusion hev
    · rcases redrawFrame_cases env s sc0 s' tr hred with
        ⟨hz2, -, -⟩ | ⟨-, prev, s1, sc1, n, hpfe, hrs, hafter⟩
      · exact absurd hz2 hz
      · rcases afterAcquire_cases _ _ _ _ _ _ _ hafter with
          ⟨hacq2, -⟩ | ⟨i2, sub2, fut2, fb, pl, hacq2, -, -, rfl, hfl⟩
        · rw [hacq] at hacq2
          exact AcquireResult.noConfusion hacq2
        · rw [hacq] at hacq2
          injection hacq2 with e1 e2 e3
          subst e2
          rcases hfl with ⟨-, rfl⟩ | ⟨-, rfl⟩
          · exact ⟨rfl, rfl, rfl, rfl⟩
          · exact ⟨rfl, rfl, rfl, rfl⟩
    · exact WindowEvent.noConfusion hev
  · intro env s hacq hz
    cases hout : window_event env s WindowEvent.redrawRequested with
    | fatal => rfl
    | normal s' tr =>
      exfalso
      obtain ⟨w, sc0, rp, hw, hsc, hrp, hcase⟩ := window_event_cases env s _ s' tr hout
      rcases hcase with ⟨hev, -, -⟩ | ⟨sz, hev, -, -⟩ | ⟨-, hred⟩ | ⟨t, hev, -, -⟩
      · exact WindowEvent.noConfusion hev
      · exact WindowEvent.noConfusion hev
      · rcases redrawFrame_cases env s sc0 s' tr hred with
          ⟨hz2, -, -⟩ | ⟨-, prev, s1, sc1, n, hpfe, hrs, hafter⟩
        · exact hz hz2
        · rcases afterAcquire_cases _ _ _ _ _ _ _ hafter with
            ⟨hacq2, -⟩ | ⟨i, sub, fut, fb, pl, hacq2, -⟩
          · rw [hacq] at hacq2
            exact AcquireResult.noConfusion hacq2
          · rw [hacq] at hacq2
            exact AcquireResult.noConfusion hacq2
      · exact WindowEvent.noConfusion hev

/-- Witness for C2: the three acquire outcomes at the live state. -/
theorem C2_acquire_error_handling_witness :
    (sFlagged.recreate_swapchain = true ∧ trCleanupOnly.recorded = [] ∧
      trCleanupOnly.submitted = [] ∧ trCleanupOnly.presents = [] ∧
      sFlagged.previous_frame_end = sLive.previous_frame_end) ∧
    (sSuboptAfter.recreate_swapchain = true ∧ trSubmit.recorded.length = 1 ∧
      trSubmit.submitted.length = 1 ∧ trSubmit.presents.length = 1) ∧
    window_event envAcqErr sLive WindowEvent.redrawRequested = Outcome.fatal :=
  ⟨C2_acquire_error_handling.1 envAcqOOD sLive sFlagged trCleanupOnly rfl
      (by decide) (by decide),
   C2_acquire_error_handling.2.1 envSubopt sLive sSuboptAfter trSubmit 0
      (GpuFuture.envFuture 0) rfl (by decide) (by decide),
   C2_acquire_error_handling.2.2 envAcqErr sLive rfl (by decide)⟩

/-- Counterexample to claim C1 as stated: at the live state with a
non-zero 800 by 600 window, an acquire reporting OutOfDate makes the
handler return normally having submitted zero command buffers and issued
zero presents, not exactly one of each. -/
theorem C1_counterexample :
    window_event envAcqOOD sLive WindowEvent.redrawRequested =
      Outcome.normal sFlagged trCleanupOnly ∧
    envAcqOOD.innerSize.1 ≠ 0 ∧ envAcqOOD.innerSize.2 ≠ 0 ∧
    trCleanupOnly.submitted.length = 0 ∧ trCleanupOnly.presents.length = 0 := by
  exact ⟨by decide, by decide, by decide, rfl, rfl⟩

/-- Claim C1 (amended): for every RedrawRequested handled with a non-zero
inner size that returns normally, exactly one command buffer is submitted
and exactly one present is issued, except when acquire reports OutOfDate,
in which case none are. -/
theorem C1_one_submit_one_present_per_frame :
    ∀ env s s' tr,
      window_event env s WindowEvent.redrawRequested = Outcome.normal s' tr →
      ¬(env.innerSize.1 = 0 ∨ env.innerSize.2 = 0) →
      (env.acquire ≠ AcquireResult.outOfDate →
        tr.submitted.length = 1 ∧ tr.presents.length = 1) ∧
      (env.acquire = AcquireResult.outOfDate →
        tr.submitted.length = 0 ∧ tr.presents.length = 0) := by
  intro env s s' tr h hz
  obtain ⟨w, sc0, rp, hw, hsc, hrp, hcase⟩ := window_event_cases env s _ s' tr h
  rcases hcase with ⟨hev, -, -⟩ | ⟨sz, hev, -, -⟩ | ⟨-, hred⟩ | ⟨t, hev, -, -⟩
  · exact WindowEvent.noConfusion hev
  · exact WindowEvent.noConfusion hev
  · rcases redrawFrame_cases env s sc0 s' tr hred with
      ⟨hz2, -, -⟩ | ⟨-, prev, s1, sc1, n, hpfe, hrs, hafter⟩
    · exact absurd hz2 hz
    · rcases afterAcquire_cases _ _ _ _ _ _ _ hafter with
        ⟨hacq2, -, rfl⟩ | ⟨i, sub, fut, fb, pl, hacq2, -, -, rfl, -⟩
      · exact ⟨fun hne => absurd hacq2 hne, fun _ => ⟨rfl, rfl⟩⟩
      · refine ⟨fun _ => ⟨rfl, rfl⟩, fun heq => ?_⟩
        rw [heq] at hacq2
        exact AcquireResult.noConfusion hacq2
  · exact WindowEvent.noConfusion hev

/-- Witness for the amended C1: one successful frame from the live state
submits one command buffer and presents once. -/
theorem C1_one_submit_one_present_per_frame_witness :
    trSubmit.submitted.length = 1 ∧ trSubmit.presents.length = 1 :=
  (C1_one_submit_one_present_per_frame envOk sLive sAfterOk trSubmit
      (by decide) (by decide)).1 (by decide)

/-- Claim C4: a frame whose acquire and flush both succeed stores as the
new previous_frame_end exactly the chain: previous frame end joined with
the acquire future, then command-buffer execution on the queue, then
presentation of the acquired image index on the current swapchain, then
fence signal and flush; that command buffer and that present are the ones
in the trace. -/
theorem C4_future_chain_order :
    ∀ env s s' tr prev i sub fut,
      s.previous_frame_end = some prev →
      env.acquire = AcquireResult.ok i sub fut →
      env.flush = FlushResult.ok →
      ¬(env.innerSize.1 = 0 ∨ env.innerSize.2 = 0) →
      window_event env s WindowEvent.redrawRequested = Outcome.normal s' tr →
      ∃ sc cb, s'.swapchain = some sc ∧ tr.submitted = [cb] ∧
        tr.presents = [(sc, i)] ∧
        s'.previous_frame_end = some
          (GpuFuture.thenSignalFenceAndFlush
            (GpuFuture.thenSwapchainPresent
              (GpuFuture.thenExecute (GpuFuture.join prev fut) s.queue cb)
              s.queue sc i)) := by
  intro env s s' tr prev i sub fut hpfe0 hacq hflush hz h
  obtain ⟨w, sc0, rp, hw, hsc, hrp, hcase⟩ := window_event_cases env s _ s' tr h
  rcases hcase with ⟨hev, -, -⟩ | ⟨sz, hev, -, -⟩ | ⟨-, hred⟩ | ⟨t, hev, -, -⟩
  · exact WindowEvent.noConfusion hev
  · exact WindowEvent.noConfusion hev
  · rcases redrawFrame_cases env s sc0 s' tr hred with
      ⟨hz2, -, -⟩ | ⟨-, prev2, s1, sc1, n, hpfe, hrs, hafter⟩
    · exact absurd hz2 hz
    · rw [hpfe0] at hpfe
      injection hpfe with hprev
      subst hprev
      rcases afterAcquire_cases _ _ _ _ _ _ _ hafter with
        ⟨hacq2, -, -⟩ | ⟨i2, sub2, fut2, fb, pl, hacq2, hfb, hpl, rfl, hfl⟩
      · rw [hacq] at hacq2
        exact AcquireResult.noConfusion hacq2
      · rw [hacq] at hacq2
        injection hacq2 with e1 e2 e3
        subst e1
        subst e2
        subst e3
        rcases hfl with ⟨-, rfl⟩ | ⟨hfl2, -⟩
        · rcases recreateStep_cases _ _ _ _ _ _ _ hrs with
            ⟨-, rfl, rfl, -⟩ | ⟨-, -, rfl, -, rfl⟩
          · exact ⟨_, _, hsc, rfl, rfl, rfl⟩
          · exact ⟨_, _, rfl, rfl, rfl, rfl⟩
        · rw [hflush] at hfl2
          exact FlushResult.noConfusion hfl2
  · exact WindowEvent.noConfusion hev

/-- Witness for C4: the successful frame from the live state. -/
theorem C4_future_chain_order_witness :
    ∃ sc cb, sAfterOk.swapchain = some sc ∧ trSubmit.submitted = [cb] ∧
      trSubmit.presents = [(sc, 0)] ∧
      sAfterOk.previous_frame_end = some
        (GpuFuture.thenSignalFenceAndFlush
          (GpuFuture.thenSwapchainPresent
            (GpuFuture.thenExecute
              (GpuFuture.join GpuFuture.now (GpuFuture.envFuture 0)) sLive.queue cb)
            sLive.queue sc 0)) :=
  C4_future_chain_order envOk sLive sAfterOk trSubmit GpuFuture.now 0 false
    (GpuFuture.envFuture 0) rfl rfl rfl (by decide) (by decide)

/-- Claim C7: after the per-frame submission is flushed, a successful
flush stores the flushed future as the new previous_frame_end; OutOfDate
at flush sets the recreate flag and resets previous_frame_end to a fresh
now-future; any other flush error is fatal. -/
theorem C7_flush_result_handling :
    (∀ env s s' tr f, env.flush = FlushResult.ok →
        window_event env s WindowEvent.redrawRequested = Outcome.normal s' tr →
        tr.flushed = some f →
        s'.previous_frame_end = some f) ∧
    (∀ env s s' tr f, env.flush = FlushResult.outOfDate →
        window_event env s WindowEvent.redrawRequested = Outcome.normal s' tr →
        tr.flushed = some f →
        s'.recreate_swapchain = true ∧
        s'.previous_frame_end = some GpuFuture.now) ∧
    (∀ env s i sub fut, env.acquire = AcquireResult.ok i sub fut →
        env.flush = FlushResult.otherError →
        ¬(env.innerSize.1 = 0 ∨ env.innerSize.2 = 0) →
        window_event env s WindowEvent.redrawRequested = Outcome.fatal) := by
  refine ⟨?_, ?_, ?_⟩
  · intro env s s' tr f hflush h hfl
    obtain ⟨w, sc0, rp, hw, hsc, hrp, hcase⟩ := window_event_cases env s _ s' tr h
    rcases hcase with ⟨hev, -, -⟩ | ⟨sz, hev, -, -⟩ | ⟨-, hred⟩ | ⟨t, hev, -, -⟩
    · exact WindowEvent.noConfusion hev
    · exact WindowEvent.noConfusion hev
    · rcases redrawFrame_cases env s sc0 s' tr hred with
        ⟨-, -, rfl⟩ | ⟨-, prev, s1, sc1, n, hpfe, hrs, hafter⟩
      · exact Option.noConfusion hfl
      · rcases afterAcquire_cases _ _ _ _ _ _ _ hafter with
          ⟨-, -, rfl⟩ | ⟨i, sub, fut, fb, pl, hacq2, -, -, rfl, hcase2⟩
        · exact Option.noConfusion hfl
        · injection hfl with hf
          subst hf
          rcases hcase2 with ⟨-, rfl⟩ | ⟨hfl2, -⟩
          · rfl
          · rw [hflush] at hfl2
            exact FlushResult.noConfusion hfl2
    · exact WindowEvent.noConfusion hev
  · intro env s s' tr f hflush h hfl
    obtain ⟨w, sc0, rp, hw, hsc, hrp, hcase⟩ := window_event_cases env s _ s' tr h
    rcases hcase with ⟨hev, -, -⟩ | ⟨sz, hev, -, -⟩ | ⟨-, hred⟩ | ⟨t, hev, -, -⟩
    · exact WindowEvent.noConfusion hev
    · exact WindowEvent.noConfusion hev
    · rcases redrawFrame_cases env s sc0 s' tr hred with
        ⟨-, -, rfl⟩ | ⟨-, prev, s1, sc1, n, hpfe, hrs, hafter⟩
      · exact Option.noConfusion hfl
      · rcases afterAcquire_cases _ _ _ _ _ _ _ hafter with
          ⟨-, -, rfl⟩ | ⟨i, sub, fut, fb, pl, hacq2, -, -, rfl, hcase2⟩
        · exact Option.noConfusion hfl
        · rcases hcase2 with ⟨hfl2, -⟩ | ⟨-, rfl⟩
          · rw [hflush] at hfl2
            exact FlushResult.noConfusion hfl2
          · exact ⟨rfl, rfl⟩
    · exact WindowEvent.noConfusion hev
  · intro env s i sub fut hacq hflush hz
    cases hout : window_event env s WindowEvent.redrawRequested with
    | fatal => rfl
    | normal s' tr =>
      exfalso
      obtain ⟨w, sc0, rp, hw, hsc, hrp, hcase⟩ := window_event_cases env s _ s' tr hout
      rcases hcase with ⟨hev, -, -⟩ | ⟨sz, hev, -, -⟩ | ⟨-, hred⟩ | ⟨t, hev, -, -⟩
      · exact WindowEvent.noConfusion hev
      · exact WindowEvent.noConfusion hev
      · rcases redrawFrame_cases env s sc0 s' tr hred with
          ⟨hz2, -, -⟩ | ⟨-, prev, s1, sc1, n, hpfe, hrs, hafter⟩
        · exact hz hz2
        · rcases afterAcquire_cases _ _ _ _ _ _ _ hafter with
            ⟨hacq2, -⟩ | ⟨i2, sub2, fut2, fb, pl, hacq2, -, -, -, hcase2⟩
          · rw [hacq] at hacq2
            exact AcquireResult.noConfusion hacq2
          · rcases hcase2 with ⟨hfl2, -⟩ | ⟨hfl2, -⟩ <;>
              (rw [hflush] at hfl2; exact FlushResult.noConfusion hfl2)
      · exact WindowEvent.noConfusion hev

/-- Witness for C7: the successful flush and the OutOfDate flush at the
live state, and the fatal other-error flush. -/
theorem C7_flush_result_handling_witness :
    sAfterOk.previous_frame_end = some futureLive ∧
    (sFlushOODAfter.recreate_swapchain = true ∧
      sFlushOODAfter.previous_frame_end = some GpuFuture.now) ∧
    window_event envFlushErr sLive WindowEvent.redrawRequested = Outcome.fatal := by
  refine ⟨?_, ?_, ?_⟩
  · exact C7_flush_result_handling.1 envOk sLive sAfterOk trSubmit futureLive rfl
      (by decide) rfl
  · exact C7_flush_result_handling.2.1 envFlushOOD sLive sFlushOODAfter trSubmit
      futureLive rfl (by decide) rfl
  · exact C7_flush_result_handling.2.2 envFlushErr sLive 0 false
      (GpuFuture.envFuture 0) rfl rfl (by decide)

/-- Rebuilding with the current extent reproduces the current create-info. -/
theorem withExtent_self (info : SwapchainCreateInfo) :
    info.withExtent info.imageExtent = info := rfl

/-- Claim C8: with the recreate flag set, the recreate step rebuilds the
swapchain with a create-info identical to the old one except for the new
image extent, rebuilds the framebuffers from the new images, refreshes the
cached viewport extent and clears the flag; with an unchanged extent the
rebuilt framebuffer set keeps the previous count and format. At the
handler level, a redraw with the flag set and non-zero extent performs
exactly one recreation and ends with the extent-updated create-info. -/
theorem C8_recreate_swapchain_rebuild :
    (∀ env s sc0 ext s1 sc1 n, s.recreate_swapchain = true →
        recreateStep env s sc0 ext = some (s1, sc1, n) →
        s1.swapchain = some sc1 ∧
        sc1.createInfo = sc0.createInfo.withExtent ext ∧
        sc1.createInfo.imageExtent = ext ∧
        sc1.createInfo.minImageCount = sc0.createInfo.minImageCount ∧
        sc1.createInfo.imageFormat = sc0.createInfo.imageFormat ∧
        sc1.createInfo.imageUsage = sc0.createInfo.imageUsage ∧
        sc1.createInfo.compositeAlpha = sc0.createInfo.compositeAlpha ∧
        s1.viewport.extent = ext ∧
        s1.recreate_swapchain = false ∧
        (∀ fb ∈ s1.framebuffers, fb.extent = ext ∧
          fb.format = sc0.createInfo.imageFormat) ∧
        (ext = sc0.createInfo.imageExtent →
          s.framebuffers.length = env.driverImageCount sc0.createInfo →
          s1.framebuffers.length = s.framebuffers.length)) ∧
    (∀ env s s' tr sc0, s.swapchain = some sc0 → s.recreate_swapchain = true →
        ¬(env.innerSize.1 = 0 ∨ env.innerSize.2 = 0) →
        window_event env s WindowEvent.redrawRequested = Outcome.normal s' tr →
        tr.recreations = 1 ∧
        ∃ sc', s'.swapchain = some sc' ∧
          sc'.createInfo = sc0.createInfo.withExtent env.innerSize) := by
  constructor
  · intro env s sc0 ext s1 sc1 n hf hstep
    rcases recreateStep_cases _ _ _ _ _ _ _ hstep with
      ⟨hf2, -, -, -⟩ | ⟨-, -, rfl, -, rfl⟩
    · rw [hf] at hf2
      exact Bool.noConfusion hf2
    · refine ⟨rfl, rfl, rfl, rfl, rfl, rfl, rfl, rfl, rfl, ?_, ?_⟩
      · intro fb hfb
        rw [List.eq_of_mem_replicate hfb]
        exact ⟨rfl, rfl⟩
      · intro hext hlen
        subst hext
        rw [withExtent_self]
        simp [hlen]
  · intro env s s' tr sc0 hsc0 hf hz h
    obtain ⟨w, sc0A, rp, hw, hscA, hrp, hcase⟩ := window_event_cases env s _ s' tr h
    rw [hsc0] at hscA
    injection hscA with e
    subst e
    rcases hcase with ⟨hev, -, -⟩ | ⟨sz, hev, -, -⟩ | ⟨-, hred⟩ | ⟨t, hev, -, -⟩
    · exact WindowEvent.noConfusion hev
    · exact WindowEvent.noConfusion hev
    · rcases redrawFrame_cases env s sc0 s' tr hred with
        ⟨hz2, -, -⟩ | ⟨-, prev, s1, sc1, n, hpfe, hrs, hafter⟩
      · exact absurd hz2 hz
      · rcases recreateStep_cases _ _ _ _ _ _ _ hrs with
          ⟨hf2, -, -, -⟩ | ⟨-, rfl, rfl, -, rfl⟩
        · rw [hf] at hf2
          exact Bool.noConfusion hf2
        · rcases afterAcquire_cases _ _ _ _ _ _ _ hafter with
            ⟨-, rfl, rfl⟩ | ⟨i, sub, fut, fb, pl, -, -, -, rfl, hfl⟩
          · exact ⟨rfl, _, rfl, rfl⟩
          · rcases hfl with ⟨-, rfl⟩ | ⟨-, rfl⟩
            · exact ⟨rfl, _, rfl, rfl⟩
            · exact ⟨rfl, _, rfl, rfl⟩
    · exact WindowEvent.noConfusion hev

/-- Witness for C8: rebuilding the live 800 by 600 swapchain at the same
extent, both at the recreate step and across a full successful frame. -/
theorem C8_recreate_swapchain_rebuild_witness :
    sLive.swapchain = some scLive ∧ trSubmitRebuild.recreations = 1 :=
  ⟨(C8_recreate_swapchain_rebuild.1 envOk sFlagged scLive (800, 600) sLive scLive 1
      rfl (by decide)).1,
   (C8_recreate_swapchain_rebuild.2 envOk sFlagged sAfterOk trSubmitRebuild scLive
      rfl rfl (by decide) (by decide)).1⟩

/-- The post-acquire part of the frame changes neither the swapchain nor
the viewport nor the framebuffers, so it preserves the viewport
invariant, and any command buffer it records carries the cached viewport,
whose extent equals the current swapchain's image extent. -/
theorem afterAcquire_inv (env : Env) (tr : Trace) (s1 : App) (sc1 : Swapchain)
    (prev : GpuFuture) (s' : App) (tr' : Trace)
    (hsc1 : s1.swapchain = some sc1)
    (hinv : viewportSwapchainInv s1 = true)
    (htr : tr.recorded = [])
    (h : afterAcquire env tr s1 sc1 prev = Outcome.normal s' tr') :
    viewportSwapchainInv s' = true ∧
    ∀ cb ∈ tr'.recorded, ∃ sc, s'.swapchain = some sc ∧
      cb.viewport.extent = sc.createInfo.imageExtent := by
  have hvp : s1.viewport.extent = sc1.createInfo.imageExtent := by
    simp only [viewportSwapchainInv, hsc1, Bool.and_eq_true, decide_eq_true_eq] at hinv
    exact hinv.1
  rcases afterAcquire_cases _ _ _ _ _ _ _ h with
    ⟨-, rfl, rfl⟩ | ⟨i, sub, fut, fb, pl, -, -, -, rfl, hfl⟩
  · refine ⟨hinv, ?_⟩
    intro cb hcb
    rw [htr] at hcb
    exact absurd hcb (List.not_mem_nil cb)
  · have hrec : ∀ cb ∈ [(⟨fb, s1.viewport, pl, s1.vertex_buffer_len⟩ : CommandBuffer)],
        ∃ sc, s1.swapchain = some sc ∧
          cb.viewport.extent = sc.createInfo.imageExtent := by
      intro cb hcb
      rw [List.mem_singleton] at hcb
      subst hcb
      exact ⟨sc1, hsc1, hvp⟩
    rcases hfl with ⟨-, rfl⟩ | ⟨-, rfl⟩
    · exact ⟨hinv, hrec⟩
    · exact ⟨hinv, hrec⟩

/-- Claim C9: App::resumed establishes that the cached viewport extent
equals the swapchain's image extent (and the framebuffers match it too),
every normally returning handler invocation preserves this invariant, and
every command buffer recorded by a handler invocation carries a viewport
whose extent equals the image extent of the swapchain current at record
time. -/
theorem C9_viewport_equals_swapchain_extent :
    (∀ env s s2, App.resumed env s = some s2 → viewportSwapchainInv s2 = true) ∧
    (∀ env s ev s2 tr, viewportSwapchainInv s = true →
        window_event env s ev = Outcome.normal s2 tr →
        viewportSwapchainInv s2 = true ∧
        ∀ cb ∈ tr.recorded, ∃ sc, s2.swapchain = some sc ∧
          cb.viewport.extent = sc.createInfo.imageExtent) := by
  constructor
  · intro env s s2 h
    cases hfm : env.surfaceFormats.head? with
    | none =>
      simp only [App.resumed, hfm] at h
      exact Option.noConfusion h
    | some fmt =>
      cases hca : env.supportedCompositeAlpha.head? with
      | none =>
        simp only [App.resumed, hfm, hca] at h
        exact Option.noConfusion h
      | some ca =>
        simp only [App.resumed, hfm, hca, Swapchain.create] at h
        split at h
        · exact Option.noConfusion h
        · rename_i fbs vp heq
          simp only [Option.some.injEq] at h
          subst h
          obtain ⟨hfbs, hvp, hk⟩ := setup_replicate _ _ _ _ _ _ heq
          subst hfbs
          subst hvp
          simp only [viewportSwapchainInv, List.all_eq_true, Bool.and_eq_true,
            decide_eq_true_eq]
          refine ⟨trivial, ?_⟩
          intro fb hfb
          rw [List.eq_of_mem_replicate hfb]
          exact ⟨rfl, rfl⟩
  · intro env s ev s2 tr hinv h
    obtain ⟨w, sc0, rp, hw, hsc, hrp, hcase⟩ := window_event_cases env s ev s2 tr h
    rcases hcase with ⟨-, rfl, rfl⟩ | ⟨sz, -, rfl, rfl⟩ | ⟨-, hred⟩ | ⟨t, -, rfl, rfl⟩
    · refine ⟨hinv, ?_⟩
      intro cb hcb
      exact absurd hcb (List.not_mem_nil cb)
    · refine ⟨hinv, ?_⟩
      intro cb hcb
      exact absurd hcb (List.not_mem_nil cb)
    · rcases redrawFrame_cases env s sc0 s2 tr hred with
        ⟨-, rfl, rfl⟩ | ⟨-, prev, s1, sc1, n, hpfe, hrs, hafter⟩
      · refine ⟨hinv, ?_⟩
        intro cb hcb
        exact absurd hcb (List.not_mem_nil cb)
      · rcases recreateStep_cases _ _ _ _ _ _ _ hrs with
          ⟨-, rfl, hsceq, -⟩ | ⟨-, -, rfl, -, rfl⟩
        · exact afterAcquire_inv _ _ _ _ _ _ _ (by rw [hsc, hsceq]) hinv rfl hafter
        · refine afterAcquire_inv _ _ _ _ _ _ _ rfl ?_ rfl hafter
          simp only [viewportSwapchainInv, SwapchainCreateInfo.withExtent,
            List.all_eq_true, Bool.and_eq_true, decide_eq_true_eq]
          refine ⟨trivial, ?_⟩
          intro fb hfb
          rw [List.eq_of_mem_replicate hfb]
          exact ⟨rfl, rfl⟩
    · refine ⟨hinv, ?_⟩
      intro cb hcb
      exact absurd hcb (List.not_mem_nil cb)

/-- Witness for C9: App::resumed from a fresh App yields the live state
satisfying the invariant, and one successful frame from the live state
preserves it while recording a matching viewport. -/
theorem C9_viewport_equals_swapchain_extent_witness :
    viewportSwapchainInv sLive = true ∧
    (viewportSwapchainInv sAfterOk = true ∧
      ∀ cb ∈ trSubmit.recorded, ∃ sc, sAfterOk.swapchain = some sc ∧
        cb.viewport.extent = sc.createInfo.imageExtent) :=
  ⟨C9_viewport_equals_swapchain_extent.1 envResumed App.new sLive (by decide),
   C9_viewport_equals_swapchain_extent.2 envOk sLive WindowEvent.redrawRequested
     sAfterOk trSubmit (by decide) (by decide)⟩

/-- Iterator::position finds the first satisfying index: the element at
the returned index satisfies the predicate and no earlier element does. -/
theorem position_spec {α : Type} (p : α → Bool) (l : List α) (i : Nat)
    (h : position p l = some i) :
    (∃ a, l[i]? = some a ∧ p a = true) ∧
    ∀ j, j < i → ∀ a, l[j]? = some a → p a = false := by
  induction l generalizing i with
  | nil => exact Option.noConfusion h
  | cons a l ih =>
    cases hp : p a with
    | true =>
      simp only [position, hp, if_true, Option.some.injEq] at h
      subst h
      refine ⟨⟨a, List.getElem?_cons_zero, hp⟩, ?_⟩
      intro j hj
      exact absurd hj (Nat.not_lt_zero j)
    | false =>
      simp only [position, hp, Bool.false_eq_true, if_false,
        Option.map_eq_some'] at h
      obtain ⟨i', hi', rfl⟩ := h
      obtain ⟨⟨b, hb, hpb⟩, hbefore⟩ := ih i' hi'
      refine ⟨⟨b, ?_, hpb⟩, ?_⟩
      · simpa using hb
      · intro j hj c hc
        cases j with
        | zero =>
          simp only [List.getElem?_cons_zero, Option.some.injEq] at hc
          subst hc
          exact hp
        | succ j =>
          rw [List.getElem?_cons_succ] at hc
          exact hbefore j (Nat.lt_of_succ_lt_succ hj) c hc

/-- min_by_key returns none exactly on the empty list. -/
theorem min_by_key_eq_none {α : Type} (key : α → Nat) (l : List α) :
    min_by_key key l = none ↔ l = [] := by
  cases l with
  | nil => simp [min_by_key]
  | cons a l =>
    constructor
    · intro h
      simp only [min_by_key] at h
      split at h
      · exact Option.noConfusion h
      · split at h <;> exact Option.noConfusion h
    · intro h
      exact List.noConfusion h

/-- min_by_key returns a member of minimal key, and it is the first
member attaining the minimum: everything before it has a strictly larger
key. -/
theorem min_by_key_spec {α : Type} (key : α → Nat) (l : List α) (b : α)
    (h : min_by_key key l = some b) :
    b ∈ l ∧ (∀ x ∈ l, key b ≤ key x) ∧
    ∃ l1 l2, l = l1 ++ b :: l2 ∧ ∀ x ∈ l1, key b < key x := by
  induction l generalizing b with
  | nil => exact Option.noConfusion h
  | cons a l ih =>
    cases hm : min_by_key key l with
    | none =>
      have hl : l = [] := (min_by_key_eq_none key l).mp hm
      subst hl
      simp only [min_by_key, Option.some.injEq] at h
      subst h
      refine ⟨List.mem_singleton_self a, ?_, [], [], rfl, ?_⟩
      · intro x hx
        rw [List.mem_singleton] at hx
        subst hx
        exact Nat.le_refl _
      · intro x hx
        exact absurd hx (List.not_mem_nil x)
    | some c =>
      obtain ⟨hmem, hmin, l1, l2, hdecomp, hfirst⟩ := ih c hm
      simp only [min_by_key, hm] at h
      by_cases hle : key a ≤ key c
      · rw [if_pos hle] at h
        injection h with h
        subst h
        refine ⟨List.mem_cons_self a l, ?_, [], l, rfl, ?_⟩
        · intro x hx
          rcases List.mem_cons.mp hx with rfl | hx
          · exact Nat.le_refl _
          · exact Nat.le_trans hle (hmin x hx)
        · intro x hx
          exact absurd hx (List.not_mem_nil x)
      · rw [if_neg hle] at h
        injection h with h
        subst h
        have hlt : key c < key a := Nat.not_le.mp hle
        refine ⟨List.mem_cons_of_mem a hmem, ?_, a :: l1, l2,
          by rw [hdecomp, List.cons_append], ?_⟩
        · intro x hx
          rcases List.mem_cons.mp hx with rfl | hx
          · exact Nat.le_of_lt hlt
          · exact hmin x hx
        · intro x hx
          rcases List.mem_cons.mp hx with rfl | hx
          · exact hlt
          · exact hfirst x hx

/-- Membership in the candidate pairs: the device was enumerated, supports
the swapchain extension, and the paired index is its first suitable queue
family. -/
theorem candidatePairs_mem (devices : List PhysicalDevice) (p : PhysicalDevice)
    (i : Nat) (h : (p, i) ∈ candidatePairs devices) :
    p ∈ devices ∧ p.supportsSwapchainExt = true ∧
    position familySuitable p.queueFamilies = some i := by
  unfold candidatePairs at h
  rw [List.mem_filterMap] at h
  obtain ⟨q, hq, hmap⟩ := h
  rw [Option.map_eq_some'] at hmap
  obtain ⟨j, hj, hpair⟩ := hmap
  simp only [Prod.mk.injEq] at hpair
  obtain ⟨rfl, rfl⟩ := hpair
  rw [List.mem_filter] at hq
  exact ⟨hq.1, hq.2, hj⟩

/-- Claim C6: the selection keeps only devices supporting the swapchain
extension, pairs each with its lowest-indexed queue family supporting
graphics and presentation, fails exactly when no pair exists, and picks a
pair of minimal device-class score; ties are broken by enumeration order,
the first enumerated minimal pair winning (everything before the chosen
pair in the candidate list has a strictly larger score). -/
theorem C6_device_selection :
    (∀ devices, selectPhysicalDevice devices = none ↔ candidatePairs devices = []) ∧
    (∀ devices p i, selectPhysicalDevice devices = some (p, i) →
        p ∈ devices ∧ p.supportsSwapchainExt = true ∧
        position familySuitable p.queueFamilies = some i ∧
        (∃ q, p.queueFamilies[i]? = some q ∧ familySuitable q = true) ∧
        (∀ j, j < i → ∀ q, p.queueFamilies[j]? = some q → familySuitable q = false) ∧
        (∀ pr ∈ candidatePairs devices,
          deviceTypeScore p.deviceType ≤ deviceTypeScore pr.1.deviceType) ∧
        (∃ l1 l2, candidatePairs devices = l1 ++ (p, i) :: l2 ∧
          ∀ pr ∈ l1, deviceTypeScore p.deviceType < deviceTypeScore pr.1.deviceType)) := by
  constructor
  · intro devices
    exact min_by_key_eq_none _ _
  · intro devices p i h
    obtain ⟨hmem, hmin, l1, l2, hdec, hfirst⟩ := min_by_key_spec _ _ _ h
    obtain ⟨hdev, hext, hpos⟩ := candidatePairs_mem devices p i hmem
    obtain ⟨hex, hbefore⟩ := position_spec _ _ _ hpos
    exact ⟨hdev, hext, hpos, hex, hbefore, hmin, l1, l2, hdec, hfirst⟩

/-- Witness for C6 at a two-discrete-GPU enumeration: the tie is broken in
favor of the first enumerated device. -/
theorem C6_device_selection_witness :
    devA ∈ [devA, devB] ∧ devA.supportsSwapchainExt = true ∧
    position familySuitable devA.queueFamilies = some 0 ∧
    (∃ q, devA.queueFamilies[0]? = some q ∧ familySuitable q = true) ∧
    (∀ j, j < 0 → ∀ q, devA.queueFamilies[j]? = some q → familySuitable q = false) ∧
    (∀ pr ∈ candidatePairs [devA, devB],
      deviceTypeScore devA.deviceType ≤ deviceTypeScore pr.1.deviceType) ∧
    (∃ l1 l2, candidatePairs [devA, devB] = l1 ++ (devA, 0) :: l2 ∧
      ∀ pr ∈ l1, deviceTypeScore devA.deviceType < deviceTypeScore pr.1.deviceType) :=
  C6_device_selection.2 [devA, devB] devA 0 (by decide)
